import Mathlib

/-!
Verification of the masking / template-alignment / parameter-reconstruction
pipeline of drain_parse.py.

The Python source is shallowly embedded below.  External collaborators
(the drain3 TemplateMiner, the LogMasker, the gptscript workspace and the
local filesystem) are abstracted as function parameters or explicit state,
exactly at the call boundaries the source uses them.  Strings are Lean
strings; Python dicts of lists (the parameter catalogues) are association
lists; Python exceptions are Option or Except values.
-/

set_option autoImplicit false

namespace DrainParse

/-- Python str.rstrip with no argument: drop trailing whitespace.
Used at drain_parse.py lines 73 and 140. -/
def rstrip (s : String) : String :=
  String.mk ((s.data.reverse.dropWhile Char.isWhitespace).reverse)

/-- Helper for pySplit: accumulate the current (reversed) token while
scanning, emitting a token at each whitespace run and at the end. -/
def splitWsAux : List Char → List Char → List String
  | [], buf => if buf = [] then [] else [String.mk buf.reverse]
  | c :: cs, buf =>
    if c.isWhitespace then
      (if buf = [] then [] else [String.mk buf.reverse]) ++ splitWsAux cs []
    else splitWsAux cs (c :: buf)

/-- Python str.split with no argument (drain_parse.py lines 87 and 88):
split on runs of whitespace, producing no empty tokens. -/
def pySplit (s : String) : List String :=
  splitWsAux s.data []

/-- Scanner implementing the source decomposition
re.split with pattern (<[^>]*>) followed by dropping empty parts
(drain_parse.py lines 80 -- 83, get_tokens).  The scan is over the
character list; buf holds the pending literal run reversed, and the third
argument is some m (reversed marker body) while between an opening bracket
and the first closing bracket after it, none otherwise.  When no closing
bracket follows an opening one, the regex finds no further match and the
remainder is one literal run, exactly as the scanner's end case does. -/
def tokensGo : List Char → List Char → Option (List Char) → List String
  | [], buf, none => if buf = [] then [] else [String.mk buf.reverse]
  | [], buf, some m => [String.mk (buf.reverse ++ '<' :: m.reverse)]
  | c :: cs, buf, none =>
    if c = '<' then tokensGo cs buf (some [])
    else tokensGo cs (c :: buf) none
  | c :: cs, buf, some m =>
    if c = '>' then
      (if buf = [] then [] else [String.mk buf.reverse]) ++
        String.mk ('<' :: (m.reverse ++ ['>'])) :: tokensGo cs [] none
    else tokensGo cs buf (some (c :: m))

/-- get_tokens from drain_parse.py lines 80 -- 83: split a token into
bracket-delimited placeholder-marker runs and literal runs, keeping both and
dropping empty parts. -/
def get_tokens (s : String) : List String :=
  tokensGo s.data [] none

/-- token.startswith("<") and token.endswith(">") from drain_parse.py
line 115, decided on the character list. -/
def isMarker (t : String) : Bool :=
  (match t.data with
   | '<' :: _ => true
   | _ => false) &&
  (match t.data.getLast? with
   | some '>' => true
   | _ => false)

/-- ParameterCatalogue: the dict produced by the external LogMasker, mapping
a placeholder marker to the queue of original substrings removed from the
line, in left-to-right order.  Modelled as an association list with
front-to-back lookup. -/
abbrev Catalogue := List (String × List String)

/-- Dict lookup: some queue when the key is present, none otherwise. -/
def catFind (p : Catalogue) (k : String) : Option (List String) :=
  match p with
  | [] => none
  | (k1, v) :: rest => if k1 = k then some v else catFind rest k

/-- Dict update of an existing key (used after a successful lookup to store
the queue with its front popped). -/
def catSet (p : Catalogue) (k : String) (v : List String) : Catalogue :=
  match p with
  | [] => []
  | (k1, v1) :: rest => if k1 = k then (k1, v) :: rest else (k1, v1) :: catSet rest k v

/-- One ParameterOccurrence: the dict with keys token and value appended to
new_parameters at drain_parse.py lines 108 and 117. -/
structure Occ where
  token : String
  value : String
deriving DecidableEq, Repr

/-- Wildcard branch body, drain_parse.py lines 100 -- 107: walk the
constituent runs of the masked-line token; a run that is a key of the
catalogue pops that queue's front (an empty queue raises IndexError, hence
none); any other run is appended verbatim to the accumulator. -/
def wildcardFold : List String → Catalogue → String → Option (String × Catalogue)
  | [], p, acc => some (acc, p)
  | t :: ts, p, acc =>
    match catFind p t with
    | some (v :: q) => wildcardFold ts (catSet p t q) (acc ++ v)
    | some [] => none
    | none => wildcardFold ts p (acc ++ t)

/-- Typed branch body, drain_parse.py lines 111 -- 117: walk the constituent
runs of the template token; a bracketed run pops the front of its queue
(KeyError or IndexError, hence none, when absent or empty) and emits one
occurrence; a literal run emits nothing. -/
def typedFold : List String → Catalogue → Option (List Occ × Catalogue)
  | [], p => some ([], p)
  | t :: ts, p =>
    if isMarker t then
      match catFind p t with
      | some (v :: q) =>
        match typedFold ts (catSet p t q) with
        | some (occs, p1) => some (⟨t, v⟩ :: occs, p1)
        | none => none
      | _ => none
    else typedFold ts p

/-- Main loop of extract_parameters, drain_parse.py lines 95 -- 118: walk the
zipped template and masked-line tokens, threading the catalogue. -/
def extractLoop : List (String × String) → Catalogue → Option (List Occ × Catalogue)
  | [], p => some ([], p)
  | (tt, lt) :: rest, p =>
    if tt = "<*>" then
      match wildcardFold (get_tokens lt) p "" with
      | some (v, p1) =>
        match extractLoop rest p1 with
        | some (occs, p2) => some (⟨"<*>", v⟩ :: occs, p2)
        | none => none
      | none => none
    else
      match typedFold (get_tokens tt) p with
      | some (occs1, p1) =>
        match extractLoop rest p1 with
        | some (occs2, p2) => some (occs1 ++ occs2, p2)
        | none => none
      | none => none

/-- extract_parameters, drain_parse.py lines 86 -- 119.  Returns some []
when the whitespace token counts differ (line 91), some occs on a normal
walk, and none when the walk raises (an uncaught KeyError or IndexError). -/
def extract_parameters (template masked_line : String) (parameters : Catalogue) :
    Option (List Occ) :=
  let tts := pySplit template
  let lts := pySplit masked_line
  if tts.length ≠ lts.length then some []
  else
    match extractLoop (tts.zip lts) parameters with
    | some (occs, _) => some occs
    | none => none

/-- Matched cluster as returned by the external template_miner.match: the
cluster id together with get_template (drain_parse.py lines 144 -- 146). -/
structure Cluster where
  cluster_id : Int
  template : String
deriving DecidableEq, Repr

/-- One entry of a cluster's parameter results: the dict with keys line and
parameters appended at drain_parse.py lines 150 -- 152. -/
structure LineEntry where
  line : String
  parameters : List Occ
deriving DecidableEq, Repr

/-- Body of the per-line loop of get_parameters_by_cluster, drain_parse.py
lines 138 -- 155.  The external masker and the external template miner are
the function parameters mask and matchF.  A none result means the line is
skipped: unmatched, parameterless (the params truthiness test at line 149),
or an exception caught by the per-line handler at line 153. -/
def processLine (mask : String → String × Catalogue) (matchF : String → Option Cluster)
    (line : String) : Option (Int × LineEntry) :=
  let l := rstrip line
  let (masked, params) := mask l
  match matchF masked with
  | some cl =>
    match extract_parameters cl.template masked params with
    | some ps => if ps = [] then none else some (cl.cluster_id, ⟨l, ps⟩)
    | none => none
  | none => none

/-- get_parameters_by_cluster, drain_parse.py lines 134 -- 157, read off at
one cluster id: the per-cluster list the defaultdict accumulates, in line
order.  The id is a dict key exactly when this list is nonempty. -/
def get_parameters_by_cluster (mask : String → String × Catalogue)
    (matchF : String → Option Cluster) (log_lines : List String) (cid : Int) :
    List LineEntry :=
  log_lines.filterMap (fun line =>
    match processLine mask matchF line with
    | some (c, e) => if c = cid then some e else none
    | none => none)

/-- parse_log_file, drain_parse.py lines 66 -- 77.  The external
TemplateMiner is abstracted as a state type with an add_log_message step;
the ValueError raised on empty input at line 68 is the error case, raised
before the miner is even constructed. -/
def parse_log_file {Miner : Type} (mask : String → String × Catalogue)
    (add : Miner → String → Miner) (miner0 : Miner) (log_lines : List String) :
    Except String Miner :=
  if log_lines = [] then .error "Empty log lines provided"
  else .ok (log_lines.foldl (fun m line => add m (mask (rstrip line)).1) miner0)

/-- One cluster of a persisted snapshot: the dict with keys id, size and
template built at drain_parse.py lines 245 -- 252. -/
structure ClusterInfo where
  id : Int
  size : Nat
  template : String
deriving DecidableEq, Repr

/-- Snapshot, drain_parse.py lines 244 -- 254: the persisted clusters plus
the retained log lines. -/
structure Snapshot where
  clusters : List ClusterInfo
  log_lines : List String
deriving DecidableEq, Repr

/-- State of the two persistence backends: the gptscript workspace file and
the local cache file, each holding at most one snapshot. -/
structure Backends where
  workspace : Option Snapshot
  localFile : Option Snapshot
deriving DecidableEq, Repr

/-- save_snapshot, drain_parse.py lines 242 -- 267: try the workspace write
first; on any exception fall back to writing the local cache file.
primaryOk tells whether the workspace write succeeds on this call. -/
def save_snapshot (primaryOk : Bool) (snap : Snapshot) (st : Backends) : Backends :=
  if primaryOk then { st with workspace := some snap }
  else { st with localFile := some snap }

/-- load_snapshot, drain_parse.py lines 277 -- 293: try the workspace read
first; on any exception (including a missing workspace file) fall back to
the local cache file, raising FileNotFoundError when that is missing too.
primaryOk tells whether the workspace read succeeds on this call when the
workspace file exists. -/
def load_snapshot (primaryOk : Bool) (st : Backends) : Except String Snapshot :=
  match (if primaryOk then st.workspace else none) with
  | some s => .ok s
  | none =>
    match st.localFile with
    | some s => .ok s
    | none => .error "No analysis snapshot found. Please analyze the log patterns first"

/-- One item printed to standard output by main.  A jsonError is
print of json.dumps of the single-key error object; jsonClusters and
jsonParams are the analyze and extract success payloads; text is a plain
print of a bare string. -/
inductive OutItem where
  | jsonError (msg : String)
  | jsonClusters (clusters : List ClusterInfo)
  | jsonParams (cluster_id : Int) (template : String) (entries : List LineEntry)
  | text (msg : String)
deriving DecidableEq, Repr

/-- Discriminator used to state which outputs are the structured JSON error
object. -/
def isJsonError : OutItem → Bool
  | .jsonError _ => true
  | _ => false

/-- Message printed at drain_parse.py lines 350 -- 352 when ACTION is
missing or invalid (a plain string, not a JSON object). -/
def actionErrorMsg : String :=
  "Error: ACTION must be either \"analyze\" (to discover patterns) or \"extract\" (to get parameters from a pattern)"

/-- Validity test from drain_parse.py line 349: a missing or falsy action,
or one outside the two known values, is rejected. -/
def actionValid (action : Option String) : Bool :=
  match action with
  | some a => a = "analyze" || a = "extract"
  | none => false

/-- The analyze branch of main, drain_parse.py lines 374 -- 393, together
with the surrounding try at lines 373 and 464 -- 466: a parse failure is
caught and printed as the JSON error object with exit code 1; on success the
snapshot is saved (primarySaveOk tells whether the workspace write works)
and the cluster listing printed with exit code 0.  Returns the printed
items, the exit code and the resulting backend state. -/
def mainAnalyze {Miner : Type} (mask : String → String × Catalogue)
    (add : Miner → String → Miner) (miner0 : Miner)
    (listClusters : Miner → List ClusterInfo) (primarySaveOk : Bool)
    (st : Backends) (log_lines : List String) :
    (List OutItem × Nat) × Backends :=
  match parse_log_file mask add miner0 log_lines with
  | .error e => (([.jsonError e], 1), st)
  | .ok m =>
    let snap : Snapshot := { clusters := listClusters m, log_lines := log_lines }
    let st1 := save_snapshot primarySaveOk snap st
    (([.jsonClusters snap.clusters], 0), st1)

/-- Template of the requested cluster, the generator expression at
drain_parse.py lines 443 -- 447. -/
def templateOf (snapshot : Snapshot) (cid : Int) : String :=
  match snapshot.clusters.find? (fun c => c.id == cid) with
  | some c => c.template
  | none => ""

/-- The extract branch of main, drain_parse.py lines 395 -- 462, with the
surrounding try at lines 464 -- 466.  Python truthiness makes a missing and
a zero cluster id both hit the required-id error (line 396).  The snapshot
is loaded with fallback (primaryLoadOk as in load_snapshot); an unknown id
prints the not-found JSON error and exits 1; rebuilding the miner from the
retained lines re-raises the empty-input error when the snapshot holds no
lines (caught by the outer handler, exit 1); a known id with no surviving
parameter entries prints the no-parameters JSON error and, the branch at
lines 430 -- 437 not calling sys.exit, finishes with exit code 0. -/
def mainExtract (mask : String → String × Catalogue) (matchF : String → Option Cluster)
    (cluster_id : Option Int) (primaryLoadOk : Bool) (st : Backends) :
    List OutItem × Nat :=
  if cluster_id = none ∨ cluster_id = some 0 then
    ([.jsonError "Cluster ID is required. Please run analyze action first to see available cluster IDs"], 1)
  else
    match load_snapshot primaryLoadOk st with
    | .error e => ([.jsonError e], 1)
    | .ok snapshot =>
      let cid := (cluster_id.getD 0)
      if (snapshot.clusters.any (fun c => c.id == cid)) = false then
        ([.jsonError ("Cluster ID " ++ toString cid ++ " not found in last template snapshot")], 1)
      else if snapshot.log_lines = [] then
        ([.jsonError "Empty log lines provided"], 1)
      else
        let entries := get_parameters_by_cluster mask matchF snapshot.log_lines cid
        if entries = [] then
          ([.jsonError ("No parameters found for cluster ID " ++ toString cid)], 0)
        else
          ([.jsonParams cid (templateOf snapshot cid) entries], 0)

/-- Final outcome of a main run: a normal finish with printed items and an
exit code, or an uncaught exception (a Python traceback, outside any
handler). -/
inductive RunOutcome where
  | finished (out : List OutItem) (exitCode : Nat)
  | crashed (msg : String)
deriving DecidableEq, Repr

/-- External input acquisition outcomes for one main run: the downloaded
and read lines when a URL is given, and the workspace or local read of a
named log file. -/
structure Env where
  urlLines : Except String (List String)
  wkspLines : Except String (List String)
  fileLines : Except String (List String)
deriving Repr

/-- Argument validation and input acquisition of main, drain_parse.py lines
349 -- 370, dispatching to the action handler (the two branches above,
abstracted here as runAnalyze and runExtract, both of which wrap their own
exceptions).  An invalid action and a missing source print plain text (not
JSON) and exit 1; a failing download or local read outside a handler is an
uncaught exception. -/
def mainModel (action log_file log_file_url : Option String) (env : Env)
    (runAnalyze : List String → List OutItem × Nat)
    (runExtract : List OutItem × Nat) : RunOutcome :=
  if actionValid action = false then
    .finished [.text actionErrorMsg] 1
  else
    let dispatch : List String → RunOutcome := fun log_lines =>
      if action = some "analyze" then
        .finished (runAnalyze log_lines).1 (runAnalyze log_lines).2
      else
        .finished runExtract.1 runExtract.2
    match log_file_url with
    | some _ =>
      match env.urlLines with
      | .ok lines => dispatch lines
      | .error e => .crashed e
    | none =>
      match log_file with
      | none => .finished [.text "Error: Either LOG_FILE or LOG_FILE_URL must be provided"] 1
      | some _ =>
        match env.wkspLines with
        | .ok lines => dispatch lines
        | .error _ =>
          match env.fileLines with
          | .ok lines => dispatch lines
          | .error _ => .finished [.text "Error: Log file not found"] 1

/-- Modelled from the spec: step 2a of the Aligner algorithm in its own
words (the LogMasker and the spec §4.3 are the authority; the masker source
is not in the repository).  Decompose the masked-line token into runs; for
each run, if it is a placeholder marker present in the catalogue, pop the
next value off that class's queue and append it; if it is literal text,
append it verbatim; the final string is the reconstructed value. -/
def specWildcardValue : List String → Catalogue → Option (String × Catalogue)
  | [], p => some ("", p)
  | r :: rs, p =>
    match catFind p r with
    | some (v :: q) =>
      match specWildcardValue rs (catSet p r q) with
      | some (s, p1) => some (v ++ s, p1)
      | none => none
    | some [] => none
    | none =>
      match specWildcardValue rs p with
      | some (s, p1) => some (r ++ s, p1)
      | none => none

/-- Modelled from the spec: step 2b of the Aligner algorithm — for each
placeholder sub-token found (the markers, in order), pop the corresponding
value from the catalogue and emit one ParameterOccurrence per sub-token. -/
def popEach : List String → Catalogue → Option (List Occ × Catalogue)
  | [], p => some ([], p)
  | k :: ks, p =>
    match catFind p k with
    | some (v :: q) =>
      match popEach ks (catSet p k q) with
      | some (occs, p1) => some (⟨k, v⟩ :: occs, p1)
      | none => none
    | _ => none

/-- Concatenation of a token decomposition back into one string. -/
def concatAll : List String → String
  | [] => ""
  | t :: ts => t ++ concatAll ts

/-- Queue currently held by the catalogue for one class (empty when the
class is absent). -/
def catValues (p : Catalogue) (c : String) : List String :=
  (catFind p c).getD []

/-- Test for a template none of whose tokens is the generic wildcard or
contains a placeholder-marker run: such a template can emit no occurrence. -/
def literalOnly (template : String) : Bool :=
  (pySplit template).all (fun t => t ≠ "<*>" && (get_tokens t).all (fun r => !(isMarker r)))

/-- Characters already consumed by a pending (unclosed) marker scan of
tokensGo: nothing in literal mode, the opening bracket plus the scanned
body in marker mode. -/
def pendingChars : Option (List Char) → List Char
  | none => []
  | some mm => '<' :: mm.reverse

theorem concatAll_append (xs ys : List String) :
    concatAll (xs ++ ys) = concatAll xs ++ concatAll ys := by
  induction xs with
  | nil => simp [concatAll, String.empty_append]
  | cons x xs ih => simp [concatAll, ih, String.append_assoc]

theorem tokensGo_concat : ∀ (l buf : List Char) (m : Option (List Char)),
    (concatAll (tokensGo l buf m)).data = buf.reverse ++ pendingChars m ++ l := by
  intro l
  induction l with
  | nil =>
    intro buf m
    cases m with
    | none =>
      by_cases hb : buf = []
      · simp [tokensGo, hb, concatAll, pendingChars]
      · simp [tokensGo, hb, concatAll, pendingChars, String.append_empty]
    | some mm => simp [tokensGo, concatAll, pendingChars, String.append_empty]
  | cons c cs ih =>
    intro buf m
    cases m with
    | none =>
      by_cases hc : c = '<'
      · subst hc
        simpa [tokensGo, pendingChars] using ih buf (some [])
      · simpa [tokensGo, hc, pendingChars] using ih (c :: buf) none
    | some mm =>
      by_cases hc : c = '>'
      · subst hc
        by_cases hb : buf = []
        · simp [tokensGo, hb, concatAll, pendingChars, String.data_append,
            ih [] none]
        · simp [tokensGo, hb, concatAll, concatAll_append, pendingChars,
            String.data_append, ih [] none]
      · simpa [tokensGo, hc, pendingChars] using ih buf (some (c :: mm))

theorem tokensGo_mem_data_ne : ∀ (l buf : List Char) (m : Option (List Char)),
    ∀ t ∈ tokensGo l buf m, t.data ≠ [] := by
  intro l
  induction l with
  | nil =>
    intro buf m t ht
    cases m with
    | none =>
      by_cases hb : buf = []
      · simp [tokensGo, hb] at ht
      · simp [tokensGo, hb] at ht
        subst ht
        simpa using hb
    | some mm =>
      simp [tokensGo] at ht
      subst ht
      simp
  | cons c cs ih =>
    intro buf m t ht
    cases m with
    | none =>
      by_cases hc : c = '<'
      · exact ih buf (some []) t (by simpa [tokensGo, hc] using ht)
      · exact ih (c :: buf) none t (by simpa [tokensGo, hc] using ht)
    | some mm =>
      by_cases hc : c = '>'
      · subst hc
        simp only [tokensGo, if_pos rfl] at ht
        rcases List.mem_append.mp ht with hl | hr
        · by_cases hb : buf = []
          · simp [hb] at hl
          · simp [hb] at hl
            subst hl
            simpa using hb
        · rcases List.mem_cons.mp hr with hmk | hrest
          · subst hmk
            simp
          · exact ih [] none t hrest
      · exact ih buf (some (c :: mm)) t (by simpa [tokensGo, hc] using ht)

/-- C5: get_tokens is order-preserving and lossless — concatenating its
result in order yields the input string exactly, and no element of the
result is the empty string. -/
theorem get_tokens_lossless (s : String) :
    concatAll (get_tokens s) = s ∧ ∀ t ∈ get_tokens s, t ≠ "" := by
  constructor
  · apply String.ext
    simpa [pendingChars] using tokensGo_concat s.data [] none
  · intro t ht h
    exact tokensGo_mem_data_ne s.data [] none t ht (by rw [h])

theorem extractLoop_wild (lt : String) (rest : List (String × String)) (p : Catalogue) :
    extractLoop (("<*>", lt) :: rest) p =
      (wildcardFold (get_tokens lt) p "").bind (fun r =>
        (extractLoop rest r.2).map (fun r2 => (⟨"<*>", r.1⟩ :: r2.1, r2.2))) := by
  cases hw : wildcardFold (get_tokens lt) p "" with
  | none => simp [extractLoop, hw]
  | some r =>
    obtain ⟨v, p1⟩ := r
    cases h1 : extractLoop rest p1 with
    | none => simp [extractLoop, hw, h1]
    | some r1 => simp [extractLoop, hw, h1]

theorem extractLoop_typed (tt lt : String) (rest : List (String × String))
    (p : Catalogue) (htt : tt ≠ "<*>") :
    extractLoop ((tt, lt) :: rest) p =
      (typedFold (get_tokens tt) p).bind (fun r =>
        (extractLoop rest r.2).map (fun r2 => (r.1 ++ r2.1, r2.2))) := by
  cases ht : typedFold (get_tokens tt) p with
  | none => simp [extractLoop, htt, ht]
  | some r =>
    obtain ⟨o1, p1⟩ := r
    cases h1 : extractLoop rest p1 with
    | none => simp [extractLoop, htt, ht, h1]
    | some r1 => simp [extractLoop, htt, ht, h1]

theorem extractLoop_append (xs ys : List (String × String)) (p : Catalogue) :
    extractLoop (xs ++ ys) p =
      (extractLoop xs p).bind (fun r =>
        (extractLoop ys r.2).map (fun r2 => (r.1 ++ r2.1, r2.2))) := by
  induction xs generalizing p with
  | nil =>
    cases h : extractLoop ys p with
    | none => simp [extractLoop, h]
    | some r => simp [extractLoop, h]
  | cons hd tl ih =>
    obtain ⟨tt, lt⟩ := hd
    by_cases htt : tt = "<*>"
    · subst htt
      rw [List.cons_append, extractLoop_wild, extractLoop_wild]
      cases hw : wildcardFold (get_tokens lt) p "" with
      | none => simp
      | some r =>
        obtain ⟨v, p1⟩ := r
        cases h1 : extractLoop tl p1 with
        | none => simp [ih, h1]
        | some r1 =>
          obtain ⟨o1, q1⟩ := r1
          cases h2 : extractLoop ys q1 with
          | none => simp [ih, h1, h2]
          | some r2 => obtain ⟨o2, q2⟩ := r2; simp [ih, h1, h2]
    · rw [List.cons_append, extractLoop_typed tt lt _ _ htt,
        extractLoop_typed tt lt _ _ htt]
      cases ht : typedFold (get_tokens tt) p with
      | none => simp
      | some r =>
        obtain ⟨o1, p1⟩ := r
        cases h1 : extractLoop tl p1 with
        | none => simp [ih, h1]
        | some r1 =>
          obtain ⟨o2, q1⟩ := r1
          cases h2 : extractLoop ys q1 with
          | none => simp [ih, h1, h2]
          | some r2 => obtain ⟨o3, q2⟩ := r2; simp [ih, h1, h2]

theorem wildcardFold_spec (rs : List String) (p : Catalogue) (acc : String) :
    wildcardFold rs p acc =
      (specWildcardValue rs p).map (fun r => (acc ++ r.1, r.2)) := by
  induction rs generalizing p acc with
  | nil => simp [wildcardFold, specWildcardValue, String.append_empty]
  | cons r rs ih =>
    cases hf : catFind p r with
    | none =>
      cases hs : specWildcardValue rs p with
      | none => simp [wildcardFold, specWildcardValue, hf, hs, ih]
      | some r1 =>
        simp [wildcardFold, specWildcardValue, hf, hs, ih, String.append_assoc]
    | some q =>
      cases q with
      | nil => simp [wildcardFold, specWildcardValue, hf]
      | cons v q =>
        cases hs : specWildcardValue rs (catSet p r q) with
        | none => simp [wildcardFold, specWildcardValue, hf, hs, ih]
        | some r1 =>
          simp [wildcardFold, specWildcardValue, hf, hs, ih, String.append_assoc]

theorem typedFold_eq_popEach (rs : List String) (p : Catalogue) :
    typedFold rs p = popEach (rs.filter isMarker) p := by
  induction rs generalizing p with
  | nil => rfl
  | cons r rs ih =>
    cases hm : isMarker r with
    | false =>
      rw [List.filter_cons_of_neg (by simp [hm])]
      simp only [typedFold, hm, Bool.false_eq_true, if_false]
      exact ih p
    | true =>
      rw [List.filter_cons_of_pos hm]
      cases hf : catFind p r with
      | none => simp [typedFold, popEach, hm, hf]
      | some q =>
        cases q with
        | nil => simp [typedFold, popEach, hm, hf]
        | cons v q => simp [typedFold, popEach, hm, hf, ih]

theorem popEach_tokens (ks : List String) (p : Catalogue) (occs : List Occ)
    (p1 : Catalogue) (h : popEach ks p = some (occs, p1)) :
    occs.map Occ.token = ks := by
  induction ks generalizing p occs p1 with
  | nil =>
    simp only [popEach, Option.some.injEq, Prod.mk.injEq] at h
    simp [← h.1]
  | cons k ks ih =>
    cases hf : catFind p k with
    | none => simp [popEach, hf] at h
    | some q =>
      cases q with
      | nil => simp [popEach, hf] at h
      | cons v q =>
        cases hp : popEach ks (catSet p k q) with
        | none => simp [popEach, hf, hp] at h
        | some r =>
          obtain ⟨o2, p2⟩ := r
          simp only [popEach, hf, hp, Option.some.injEq, Prod.mk.injEq] at h
          rw [← h.1]
          simp [ih _ _ _ hp]

/-- C1: for a template token that is exactly the generic wildcard marker,
extract_parameters splits the aligned masked-line token on
placeholder-marker boundaries (get_tokens) and reconstructs one single
value from the runs left to right — popping the queue of each run that is a
catalogue key and keeping literal runs verbatim, which is specWildcardValue,
the description of spec step 2a — contributing exactly one
ParameterOccurrence with token the wildcard marker and that reconstructed
value at this position. -/
theorem extract_parameters_wildcard_concat
    (template masked_line : String) (p : Catalogue)
    (tpre trest lpre lrest : List String) (lt : String)
    (p0 : Catalogue) (occs0 : List Occ) (v : String) (p1 : Catalogue)
    (hT : pySplit template = tpre ++ "<*>" :: trest)
    (hL : pySplit masked_line = lpre ++ lt :: lrest)
    (hpre : tpre.length = lpre.length)
    (hrest : trest.length = lrest.length)
    (h0 : extractLoop (tpre.zip lpre) p = some (occs0, p0))
    (h1 : specWildcardValue (get_tokens lt) p0 = some (v, p1)) :
    extract_parameters template masked_line p =
      (extractLoop (trest.zip lrest) p1).map
        (fun r => occs0 ++ ⟨"<*>", v⟩ :: r.1) := by
  have hcond : ¬((tpre ++ "<*>" :: trest).length ≠ (lpre ++ lt :: lrest).length) := by
    simp [hpre, hrest]
  simp only [extract_parameters, hT, hL, if_neg hcond]
  rw [List.zip_append hpre, List.zip_cons_cons, extractLoop_append, h0,
    Option.some_bind, extractLoop_wild, wildcardFold_spec, h1]
  simp only [Option.map_some', Option.some_bind, String.empty_append]
  cases h2 : extractLoop (trest.zip lrest) p1 with
  | none => simp
  | some r => simp

/-- C1 witness: a concrete aligned pair with the wildcard in second
position; the masked token a<F> is a fused literal a and marker <F>, whose
queue holds b, so the reconstructed occurrence is the concatenation ab. -/
theorem extract_parameters_wildcard_concat_witness :
    extract_parameters "copy <*> end" "copy a<F> end" [("<F>", ["b"])] =
      some [⟨"<*>", "ab"⟩] := by
  have h := extract_parameters_wildcard_concat
    "copy <*> end" "copy a<F> end" [("<F>", ["b"])]
    ["copy"] ["end"] ["copy"] ["end"] "a<F>"
    [("<F>", ["b"])] [] "ab" [("<F>", [])]
    (by decide) (by decide) (by decide) (by decide) (by decide) (by decide)
  rw [h]
  decide

/-- C2: for a template token that is not the generic wildcard — a typed
placeholder marker, possibly fused with literal text or further markers —
extract_parameters decomposes the token with get_tokens and emits one
ParameterOccurrence per marker run in order (popEach over the marker runs,
the description of spec step 2b), each bound to its own popped queue
value; literal runs and pure-literal tokens emit nothing, and the typed
values are never concatenated into one occurrence. -/
theorem extract_parameters_typed_split
    (template masked_line : String) (p : Catalogue)
    (tpre trest lpre lrest : List String) (tt lt : String)
    (p0 : Catalogue) (occs0 occs1 : List Occ) (p1 : Catalogue)
    (htt : tt ≠ "<*>")
    (hT : pySplit template = tpre ++ tt :: trest)
    (hL : pySplit masked_line = lpre ++ lt :: lrest)
    (hpre : tpre.length = lpre.length)
    (hrest : trest.length = lrest.length)
    (h0 : extractLoop (tpre.zip lpre) p = some (occs0, p0))
    (h1 : popEach ((get_tokens tt).filter isMarker) p0 = some (occs1, p1)) :
    extract_parameters template masked_line p =
      ((extractLoop (trest.zip lrest) p1).map
        (fun r => occs0 ++ occs1 ++ r.1)) ∧
    occs1.map Occ.token = (get_tokens tt).filter isMarker := by
  refine ⟨?_, popEach_tokens _ _ _ _ h1⟩
  have hcond : ¬((tpre ++ tt :: trest).length ≠ (lpre ++ lt :: lrest).length) := by
    simp [hpre, hrest]
  simp only [extract_parameters, hT, hL, if_neg hcond]
  rw [List.zip_append hpre, List.zip_cons_cons, extractLoop_append, h0,
    Option.some_bind, extractLoop_typed tt lt _ _ htt, typedFold_eq_popEach, h1,
    Option.some_bind]
  cases h2 : extractLoop (trest.zip lrest) p1 with
  | none => simp
  | some r => simp

/-- C2 witness: the composite template token of two fused typed markers
with no space yields exactly two occurrences bound to the two original
substrings, in order, not one concatenated occurrence. -/
theorem extract_parameters_typed_split_witness :
    extract_parameters "x <P><D>" "x <P><D>" [("<P>", ["/r"]), ("<D>", ["9"])] =
        some [⟨"<P>", "/r"⟩, ⟨"<D>", "9"⟩] ∧
      ([⟨"<P>", "/r"⟩, ⟨"<D>", "9"⟩] : List Occ).map Occ.token = ["<P>", "<D>"] := by
  have h := extract_parameters_typed_split
    "x <P><D>" "x <P><D>" [("<P>", ["/r"]), ("<D>", ["9"])]
    ["x"] [] ["x"] [] "<P><D>" "<P><D>"
    [("<P>", ["/r"]), ("<D>", ["9"])] [] [⟨"<P>", "/r"⟩, ⟨"<D>", "9"⟩]
    [("<P>", []), ("<D>", [])]
    (by decide) (by decide) (by decide) (by decide) (by decide) (by decide)
    (by decide)
  refine ⟨?_, ?_⟩
  · rw [h.1]
    decide
  · have h3 := h.2
    revert h3
    decide

theorem catFind_catSet_self (p : Catalogue) (k : String) (q w : List String)
    (h : catFind p k = some w) : catFind (catSet p k q) k = some q := by
  induction p with
  | nil => simp [catFind] at h
  | cons hd rest ih =>
    obtain ⟨k1, v1⟩ := hd
    by_cases hk : k1 = k
    · simp [catFind, catSet, hk]
    · simp only [catFind, catSet, hk, if_false] at h ⊢
      exact ih h

theorem catFind_catSet_other (p : Catalogue) (k c : String) (q : List String)
    (hck : c ≠ k) : catFind (catSet p k q) c = catFind p c := by
  induction p with
  | nil => simp [catSet, catFind]
  | cons hd rest ih =>
    obtain ⟨k1, v1⟩ := hd
    by_cases hk : k1 = k
    · subst hk
      simp [catSet, catFind, Ne.symm hck]
    · by_cases hc1 : k1 = c
      · simp [catSet, catFind, hk, hc1, hck]
      · simp [catSet, catFind, hk, hc1, ih]

theorem wildcardFold_suffix (rs : List String) (p : Catalogue) (acc v : String)
    (pa : Catalogue) (h : wildcardFold rs p acc = some (v, pa)) (c : String) :
    catValues pa c <:+ catValues p c := by
  induction rs generalizing p acc with
  | nil =>
    simp only [wildcardFold, Option.some.injEq, Prod.mk.injEq] at h
    rw [← h.2]
  | cons r rs ih =>
    cases hf : catFind p r with
    | none =>
      simp only [wildcardFold, hf] at h
      exact ih p (acc ++ r) h
    | some q =>
      cases q with
      | nil => simp [wildcardFold, hf] at h
      | cons w q =>
        simp only [wildcardFold, hf] at h
        refine (ih (catSet p r q) (acc ++ w) h).trans ?_
        by_cases hcr : c = r
        · subst hcr
          have hs := catFind_catSet_self p c q (w :: q) hf
          simp only [catValues, hs, hf, Option.getD_some]
          exact List.suffix_cons w q
        · have ho := catFind_catSet_other p r c q hcr
          simp [catValues, ho]

theorem typedFold_exact (rs : List String) (p : Catalogue) (occs : List Occ)
    (pa : Catalogue) (h : typedFold rs p = some (occs, pa)) (c : String) :
    ((occs.filter (fun o => o.token == c)).map Occ.value) ++ catValues pa c =
      catValues p c := by
  induction rs generalizing p occs pa with
  | nil =>
    simp only [typedFold, Option.some.injEq, Prod.mk.injEq] at h
    rw [← h.1, ← h.2]
    simp
  | cons r rs ih =>
    cases hm : isMarker r with
    | false =>
      simp only [typedFold, hm, Bool.false_eq_true, if_false] at h
      exact ih p occs pa h
    | true =>
      cases hf : catFind p r with
      | none => simp [typedFold, hm, hf] at h
      | some q =>
        cases q with
        | nil => simp [typedFold, hm, hf] at h
        | cons w q =>
          cases ht : typedFold rs (catSet p r q) with
          | none => simp [typedFold, hm, hf, ht] at h
          | some r2 =>
            obtain ⟨occs2, p2⟩ := r2
            simp only [typedFold, hm, if_true, hf, ht, Option.some.injEq,
              Prod.mk.injEq] at h
            obtain ⟨ho, hp2⟩ := h
            rw [← ho]
            subst hp2
            have hih := ih (catSet p r q) occs2 _ ht
            by_cases hcr : r = c
            · subst hcr
              have hs := catFind_catSet_self p r q (w :: q) hf
              rw [List.filter_cons_of_pos (by simp), List.map_cons,
                List.cons_append, hih]
              simp [catValues, hs, hf]
            · have hoth := catFind_catSet_other p r c q (Ne.symm hcr)
              rw [List.filter_cons_of_neg (by simp [hcr])]
              rw [hih]
              simp [catValues, hoth]

theorem extractLoop_filter_sublist (ts : List (String × String)) (p : Catalogue)
    (occs : List Occ) (pa : Catalogue) (h : extractLoop ts p = some (occs, pa))
    (c : String) (hc : c ≠ "<*>") :
    ((occs.filter (fun o => o.token == c)).map Occ.value).Sublist (catValues p c) := by
  induction ts generalizing p occs pa with
  | nil =>
    simp only [extractLoop, Option.some.injEq, Prod.mk.injEq] at h
    rw [← h.1]
    simp
  | cons hd ts ih =>
    obtain ⟨tt, lt⟩ := hd
    by_cases htt : tt = "<*>"
    · subst htt
      cases hw : wildcardFold (get_tokens lt) p "" with
      | none => simp [extractLoop, hw] at h
      | some r =>
        obtain ⟨v, p1⟩ := r
        cases he : extractLoop ts p1 with
        | none => simp [extractLoop, hw, he] at h
        | some r2 =>
          obtain ⟨occs2, p2⟩ := r2
          simp only [extractLoop, if_true, hw, he, Option.some.injEq,
            Prod.mk.injEq] at h
          obtain ⟨ho, hp⟩ := h
          rw [← ho]
          rw [List.filter_cons_of_neg (by simp [Ne.symm hc])]
          exact (ih p1 occs2 _ he).trans
            (wildcardFold_suffix (get_tokens lt) p "" v p1 hw c).sublist
    · cases htf : typedFold (get_tokens tt) p with
      | none => simp [extractLoop, htt, htf] at h
      | some r =>
        obtain ⟨occs1, p1⟩ := r
        cases he : extractLoop ts p1 with
        | none => simp [extractLoop, htt, htf, he] at h
        | some r2 =>
          obtain ⟨occs2, p2⟩ := r2
          simp only [extractLoop, htt, if_false, htf, he, Option.some.injEq,
            Prod.mk.injEq] at h
          obtain ⟨ho, hp2⟩ := h
          rw [← ho]
          subst hp2
          rw [List.filter_append, List.map_append]
          rw [← typedFold_exact (get_tokens tt) p occs1 p1 htf c]
          exact (ih p1 occs2 _ he).append_left _

/-- C4: when the same typed parameter class occurs several times in one
line, extract_parameters binds the occurrences to that class's original
values in strict left-to-right order — the values of the occurrences of any
class c, read off in result order, form an order-preserving sublist of the
class's catalogue queue, so two same-class occurrences are never swapped. -/
theorem extract_parameters_order_preserved (template masked_line : String)
    (p : Catalogue) (occs : List Occ) (c : String)
    (h : extract_parameters template masked_line p = some occs)
    (hc : c ≠ "<*>") :
    ((occs.filter (fun o => o.token == c)).map Occ.value).Sublist (catValues p c) := by
  simp only [extract_parameters] at h
  by_cases hlen : (pySplit template).length ≠ (pySplit masked_line).length
  · rw [if_pos hlen] at h
    simp only [Option.some.injEq] at h
    rw [← h]
    simp
  · rw [if_neg hlen] at h
    cases he : extractLoop ((pySplit template).zip (pySplit masked_line)) p with
    | none => rw [he] at h; cases h
    | some r =>
      obtain ⟨o, pf⟩ := r
      rw [he] at h
      simp only [Option.some.injEq] at h
      rw [← h]
      exact extractLoop_filter_sublist _ p o pf he c hc

/-- C4 witness: the same class twice in one line; the two occurrences keep
the queue order a.txt then b.txt. -/
theorem extract_parameters_order_preserved_witness :
    ((([⟨"<F>", "a.txt"⟩, ⟨"<F>", "b.txt"⟩] : List Occ).filter
        (fun o => o.token == "<F>")).map Occ.value).Sublist
      (catValues [("<F>", ["a.txt", "b.txt"])] "<F>") := by
  have hx : extract_parameters "copy <F> to <F>" "copy <F> to <F>"
      [("<F>", ["a.txt", "b.txt"])] =
      some [⟨"<F>", "a.txt"⟩, ⟨"<F>", "b.txt"⟩] := by decide
  exact extract_parameters_order_preserved _ _ _ _ _ hx (by decide)

/-- C3: a template and masked line with differing whitespace token counts
are reported as structurally incompatible: extract_parameters returns the
empty occurrence list — never a truncated or padded partial alignment — and
during reconstruction such a line is dropped from the cluster's parameter
results (processLine yields nothing) while the rest of the batch is
processed unchanged. -/
theorem extract_parameters_mismatch_skip
    (template masked : String) (p : Catalogue)
    (mask : String → String × Catalogue) (matchF : String → Option Cluster)
    (line : String) (cl : Cluster) (pre post : List String) (cid : Int)
    (hmm : (pySplit template).length ≠ (pySplit masked).length)
    (hm : mask (rstrip line) = (masked, p))
    (hc : matchF masked = some cl) (ht : cl.template = template) :
    extract_parameters template masked p = some [] ∧
    processLine mask matchF line = none ∧
    get_parameters_by_cluster mask matchF (pre ++ line :: post) cid =
      get_parameters_by_cluster mask matchF (pre ++ post) cid := by
  have h1 : extract_parameters template masked p = some [] := by
    simp only [extract_parameters, if_pos hmm]
  have h2 : processLine mask matchF line = none := by
    simp [processLine, hm, hc, ht, h1]
  refine ⟨h1, h2, ?_⟩
  simp [get_parameters_by_cluster, h2]

/-- C3 witness: a three-token template against a two-token masked line;
the middle batch line is skipped and the surrounding lines give the same
results as the batch without it. -/
theorem extract_parameters_mismatch_skip_witness :
    extract_parameters "a b c" "a b" [] = some [] ∧
    processLine (fun _ => ("a b", [])) (fun _ => some ⟨1, "a b c"⟩) "x" = none ∧
    get_parameters_by_cluster (fun _ => ("a b", [])) (fun _ => some ⟨1, "a b c"⟩)
        (["x0"] ++ "x" :: ["x1"]) 1 =
      get_parameters_by_cluster (fun _ => ("a b", [])) (fun _ => some ⟨1, "a b c"⟩)
        (["x0"] ++ ["x1"]) 1 :=
  extract_parameters_mismatch_skip "a b c" "a b" [] (fun _ => ("a b", []))
    (fun _ => some ⟨1, "a b c"⟩) "x" ⟨1, "a b c"⟩ ["x0"] ["x1"] 1
    (by decide) (by decide) (by decide) (by decide)

theorem typedFold_no_marker (rs : List String) (p : Catalogue)
    (h : ∀ r ∈ rs, isMarker r = false) : typedFold rs p = some ([], p) := by
  induction rs with
  | nil => rfl
  | cons r rs ih =>
    have hr := h r (by simp)
    simp only [typedFold, hr, Bool.false_eq_true, if_false]
    exact ih (fun r hrr => h r (by simp [hrr]))

theorem extractLoop_literal (tts : List String) (lts : List String) (p : Catalogue)
    (hlen : tts.length = lts.length)
    (h : ∀ t ∈ tts, t ≠ "<*>" ∧ ∀ r ∈ get_tokens t, isMarker r = false) :
    extractLoop (tts.zip lts) p = some ([], p) := by
  induction tts generalizing lts p with
  | nil => simp [extractLoop]
  | cons t tts ih =>
    cases lts with
    | nil => simp at hlen
    | cons l ls =>
      have hh := h t (by simp)
      have hrest : ∀ t2 ∈ tts, t2 ≠ "<*>" ∧ ∀ r ∈ get_tokens t2, isMarker r = false :=
        fun t2 h2 => h t2 (by simp [h2])
      rw [List.zip_cons_cons, extractLoop_typed t l _ p hh.1,
        typedFold_no_marker (get_tokens t) p hh.2,
        Option.some_bind, ih ls p (by simpa using hlen) hrest]
      rfl

/-- C10: extract_parameters returns the same empty occurrence list both
for a token-count mismatch and for a matched template that contains no
placeholder token at all, and reconstruction keeps a line only when its
occurrence list is nonempty, so a line whose template is purely literal is
silently absent from the cluster's results — the empty result does not let
a caller distinguish structural incompatibility from a parameterless
match. -/
theorem extract_parameters_empty_ambiguity
    (template masked : String) (p : Catalogue)
    (mask : String → String × Catalogue) (matchF : String → Option Cluster)
    (line : String) (cl : Cluster)
    (hm : mask (rstrip line) = (masked, p))
    (hc : matchF masked = some cl) (ht : cl.template = template) :
    ((pySplit template).length ≠ (pySplit masked).length →
      extract_parameters template masked p = some []) ∧
    (literalOnly template = true →
      (pySplit template).length = (pySplit masked).length →
      extract_parameters template masked p = some []) ∧
    (extract_parameters template masked p = some [] →
      processLine mask matchF line = none) := by
  refine ⟨?_, ?_, ?_⟩
  · intro hmm
    simp only [extract_parameters, if_pos hmm]
  · intro hlit hlen
    have hall : ∀ t ∈ pySplit template,
        t ≠ "<*>" ∧ ∀ r ∈ get_tokens t, isMarker r = false := by
      intro t htm
      have := (List.all_eq_true.mp hlit) t htm
      simp only [Bool.and_eq_true, decide_eq_true_eq, List.all_eq_true,
        Bool.not_eq_true'] at this
      exact ⟨this.1, this.2⟩
    simp only [extract_parameters,
      extractLoop_literal (pySplit template) (pySplit masked) p hlen hall]
    split <;> rfl
  · intro h1
    simp [processLine, hm, hc, ht, h1]

/-- C10 witness: a purely literal template matching its own line yields the
empty list — the same value as a count mismatch — and the line is absent
from the cluster's results. -/
theorem extract_parameters_empty_ambiguity_witness :
    ((pySplit "hello world").length ≠ (pySplit "hello world").length →
      extract_parameters "hello world" "hello world" [] = some []) ∧
    (literalOnly "hello world" = true →
      (pySplit "hello world").length = (pySplit "hello world").length →
      extract_parameters "hello world" "hello world" [] = some []) ∧
    (extract_parameters "hello world" "hello world" [] = some [] →
      processLine (fun _ => ("hello world", []))
        (fun _ => some ⟨1, "hello world"⟩) "hello world" = none) :=
  extract_parameters_empty_ambiguity "hello world" "hello world" []
    (fun _ => ("hello world", [])) (fun _ => some ⟨1, "hello world"⟩)
    "hello world" ⟨1, "hello world"⟩ (by decide) (by decide) (by decide)

/-- C6: the Discover phase fails fatally on an empty input sequence —
parse_log_file raises the ValueError before any template mining (the result
is the same error for every masker, miner step and initial miner, since no
step ever runs), and the analyze driver reports it as the single JSON error
object with exit code 1, leaving the persisted state untouched. -/
theorem parse_log_file_empty_fatal {Miner : Type}
    (mask : String → String × Catalogue) (add : Miner → String → Miner)
    (miner0 : Miner) (listClusters : Miner → List ClusterInfo)
    (saveOk : Bool) (st : Backends) :
    parse_log_file mask add miner0 [] = .error "Empty log lines provided" ∧
    (mainAnalyze mask add miner0 listClusters saveOk st []).1 =
      ([.jsonError "Empty log lines provided"], 1) ∧
    (mainAnalyze mask add miner0 listClusters saveOk st []).2 = st := by
  refine ⟨rfl, ?_, ?_⟩ <;> simp [mainAnalyze, parse_log_file]

/-- C7 counterexample: requesting cluster id 2 when the snapshot only holds
cluster 1 prints the structured not-found error object but the process then
exits with code 1 — the same non-zero fatal exit as input errors — so the
path is not non-fatal to the process. -/
theorem mainExtract_unknown_cluster_cex :
    mainExtract (fun s => (s, [])) (fun _ => some ⟨1, "hello"⟩) (some 2) true
        ⟨some ⟨[⟨1, 1, "hello"⟩], ["hello"]⟩, none⟩ =
      ([.jsonError "Cluster ID 2 not found in last template snapshot"], 1) ∧
    (mainExtract (fun s => (s, [])) (fun _ => some ⟨1, "hello"⟩) (some 2) true
        ⟨some ⟨[⟨1, 1, "hello"⟩], ["hello"]⟩, none⟩).2 ≠ 0 := by
  decide

/-- C7 amended: requesting Reconstruct for a ClusterId not present in the
loaded Snapshot prints a single structured not-found JSON error object (no
uncaught exception) and the process exits with the non-zero code 1. -/
theorem mainExtract_unknown_cluster_error
    (mask : String → String × Catalogue) (matchF : String → Option Cluster)
    (cid : Int) (pOk : Bool) (st : Backends) (snap : Snapshot)
    (hcid : cid ≠ 0)
    (hload : load_snapshot pOk st = .ok snap)
    (habs : snap.clusters.any (fun c => c.id == cid) = false) :
    mainExtract mask matchF (some cid) pOk st =
      ([.jsonError ("Cluster ID " ++ toString cid ++
        " not found in last template snapshot")], 1) := by
  simp [mainExtract, hcid, hload, habs]

/-- C7 witness: a concrete snapshot without the requested id. -/
theorem mainExtract_unknown_cluster_error_witness :
    mainExtract (fun s => (s, [])) (fun _ => none) (some 5) false
        ⟨none, some ⟨[⟨2, 1, "t"⟩], ["l"]⟩⟩ =
      ([.jsonError "Cluster ID 5 not found in last template snapshot"], 1) :=
  mainExtract_unknown_cluster_error (fun s => (s, [])) (fun _ => none) 5 false
    ⟨none, some ⟨[⟨2, 1, "t"⟩], ["l"]⟩⟩ ⟨[⟨2, 1, "t"⟩], ["l"]⟩
    (by decide) rfl (by decide)

/-- C8 counterexample: the workspace still holds an older snapshot; saving
a new one fails on the primary and falls back to the local file, and an
immediately following load is served by the again-reachable primary — the
client observes the stale snapshot, not the just-saved one, refuting the
round trip for differing backend availability between the two calls. -/
theorem save_load_stale_cex :
    load_snapshot true
        (save_snapshot false ⟨[], ["new"]⟩ ⟨some ⟨[], ["old"]⟩, none⟩) =
      .ok ⟨[], ["old"]⟩ ∧
    (⟨[], ["old"]⟩ : Snapshot) ≠ ⟨[], ["new"]⟩ :=
  ⟨rfl, by decide⟩

/-- C8 amended: save tries the workspace first and falls back to the local
file on failure, load applies the same order, and save followed by load
observes the just-saved snapshot whenever the primary backend availability
is the same at both calls (both up or both down); with differing
availability the load can observe a stale primary snapshot instead. -/
theorem save_load_roundtrip_same_availability (pOk : Bool) (snap : Snapshot)
    (st : Backends) :
    load_snapshot pOk (save_snapshot pOk snap st) = .ok snap ∧
    (save_snapshot true snap st).workspace = some snap ∧
    (save_snapshot false snap st).localFile = some snap ∧
    (save_snapshot false snap st).workspace = st.workspace := by
  refine ⟨?_, rfl, rfl, rfl⟩
  cases pOk with
  | true => simp [save_snapshot, load_snapshot]
  | false => simp [save_snapshot, load_snapshot]

/-- C9 counterexample: the ACTION validation error path prints a plain
string, not a JSON error object (though it does exit 1), and the
no-parameters-found path prints a JSON error object but exits 0 — both
refute the claim that every error path emits a single JSON error object
and exits non-zero. -/
theorem main_error_output_cex :
    mainModel (some "discover") none none ⟨.ok [], .ok [], .ok []⟩
        (fun _ => ([], 0)) ([], 0) =
      .finished [.text actionErrorMsg] 1 ∧
    ([OutItem.text actionErrorMsg].all isJsonError) = false ∧
    mainExtract (fun s => (s, [])) (fun _ => some ⟨1, "hello"⟩) (some 1) true
        ⟨some ⟨[⟨1, 1, "hello"⟩], ["hello"]⟩, none⟩ =
      ([.jsonError "No parameters found for cluster ID 1"], 0) := by
  decide

/-- C9 amended: inside the analyze and extract handlers every error is
printed as a single JSON error object, and all those paths exit 1 except
the no-parameters-found path, which prints the JSON error object and exits
0; the pre-dispatch validation failures (invalid or missing ACTION, missing
input source) print plain text rather than JSON and exit 1. -/
theorem main_error_output_amended {Miner : Type}
    (a lf lfu : Option String) (env : Env)
    (runA : List String → List OutItem × Nat) (runE : List OutItem × Nat)
    (mask : String → String × Catalogue) (matchF : String → Option Cluster)
    (pOk : Bool) (st : Backends) (e : String) (cid : Int)
    (maskA : String → String × Catalogue) (add : Miner → String → Miner)
    (miner0 : Miner) (listC : Miner → List ClusterInfo) (saveOk : Bool)
    (lines : List String) :
    (actionValid a = false →
      mainModel a lf lfu env runA runE = .finished [.text actionErrorMsg] 1 ∧
      ([OutItem.text actionErrorMsg].all isJsonError) = false) ∧
    (actionValid a = true → lfu = none → lf = none →
      mainModel a lf lfu env runA runE =
        .finished [.text "Error: Either LOG_FILE or LOG_FILE_URL must be provided"] 1) ∧
    (mainExtract mask matchF none pOk st =
      ([.jsonError "Cluster ID is required. Please run analyze action first to see available cluster IDs"], 1)) ∧
    (cid ≠ 0 → load_snapshot pOk st = .error e →
      mainExtract mask matchF (some cid) pOk st = ([.jsonError e], 1)) ∧
    (cid ≠ 0 → ∀ snap, load_snapshot pOk st = .ok snap →
      snap.clusters.any (fun c => c.id == cid) = true →
      snap.log_lines ≠ [] →
      get_parameters_by_cluster mask matchF snap.log_lines cid = [] →
      mainExtract mask matchF (some cid) pOk st =
        ([.jsonError ("No parameters found for cluster ID " ++ toString cid)], 0)) ∧
    (parse_log_file maskA add miner0 lines = .error e →
      (mainAnalyze maskA add miner0 listC saveOk st lines).1 = ([.jsonError e], 1)) := by
  refine ⟨?_, ?_, ?_, ?_, ?_, ?_⟩
  · intro h
    refine ⟨by simp [mainModel, h], by decide⟩
  · intro h h1 h2
    subst h1
    subst h2
    simp [mainModel, h]
  · simp [mainExtract]
  · intro hcid hl
    simp [mainExtract, hcid, hl]
  · intro hcid snap hload hany hlines hempty
    simp [mainExtract, hcid, hload, hany, hlines, hempty]
  · intro hp
    simp [mainAnalyze, hp]

/-- C9 witness: the amended behavior at concrete inputs — the invalid
action value prints plain text with exit 1, and a missing cluster id prints
the JSON error with exit 1. -/
theorem main_error_output_amended_witness :
    (mainModel (some "dig") none none ⟨.ok [], .ok [], .ok []⟩
        (fun _ => ([], 0)) ([], 0) =
        .finished [.text actionErrorMsg] 1 ∧
      ([OutItem.text actionErrorMsg].all isJsonError) = false) ∧
    mainExtract (fun s => (s, [])) (fun _ => none) none true ⟨none, none⟩ =
      ([.jsonError "Cluster ID is required. Please run analyze action first to see available cluster IDs"], 1) := by
  have h := @main_error_output_amended Unit (some "dig") none none
    ⟨.ok [], .ok [], .ok []⟩ (fun _ => ([], 0)) ([], 0)
    (fun s => (s, [])) (fun _ => none) true ⟨none, none⟩ "e" 1
    (fun s => (s, [])) (fun m _ => m) () (fun _ => []) true []
  exact ⟨h.1 (by decide), h.2.2.1⟩

end DrainParse
